import Mathlib

/-!
Verification of the heterogeneous-source GPU detection layer and the
bounded-history terminal-graph renderer of the linux_hwinfo64 repository
(src/main.py, src/system_monitor.py), as a shallow embedding in Lean 4.

Conventions of the embedding:
- Python floats are modelled as exact rationals.
- Python exceptions are modelled by the inductive PyErr below; fallible
  operations return Except values.
- The curses screen is a rectangular character grid; stdscr.addstr raises
  curses.error when its start position lies outside the window, which is the
  behaviour the renderer claims depend on.  (Real curses wraps a string that
  overflows the right margin onto the next row; the renderer never relies on
  wrapping, and an overflowing write is modelled as the error curses raises
  at the bottom-right margin.  Display attributes such as bold or colour
  pairs carry no information for the verified properties and are dropped.)
-/

/-- Python `str.strip()` on a list of characters: drop whitespace from both
ends. -/
def stripChars (l : List Char) : List Char :=
  ((l.dropWhile (fun c => c.isWhitespace)).reverse.dropWhile
    (fun c => c.isWhitespace)).reverse

/-- Python `str.strip()`. -/
def pystrip (s : String) : String :=
  String.mk (stripChars s.data)

/-- Python `str.split(sep)` on a list of characters: `split` on the empty
string yields the one-element list holding the empty string. -/
def splitChars (sep : Char) : List Char → List (List Char)
  | [] => [[]]
  | c :: cs =>
    let r := splitChars sep cs
    if c = sep then [] :: r
    else
      match r with
      | [] => [[c]]
      | h :: t => (c :: h) :: t

/-- Python `str.split(sep)`. -/
def pysplit (s : String) (sep : Char) : List String :=
  (splitChars sep s.data).map String.mk

/-- Python `int(x)` on a float: truncation toward zero. -/
def pytrunc (q : ℚ) : ℤ :=
  if 0 ≤ q then ⌊q⌋ else -⌊-q⌋

/-- Numeric value of a run of decimal digit characters. -/
def digitsVal (l : List Char) : ℕ :=
  l.foldl (fun a c => 10 * a + (c.toNat - 48)) 0

/-- Value of the fractional part written by a run of digits. -/
def fracVal (l : List Char) : ℚ :=
  (digitsVal l : ℚ) / ((10 : ℚ) ^ l.length)

/-- Unsigned decimal accepted by Python `float()`: digits, digits followed by
a point and optional digits, or a point followed by digits.  (The exponent and
inf/nan forms of `float()` never occur in the CLI fields parsed here.) -/
def parseDecimal (l : List Char) : Option ℚ :=
  let ip := l.takeWhile (fun c => c.isDigit)
  let rest := l.drop ip.length
  match rest with
  | [] => if ip.isEmpty then none else some (digitsVal ip)
  | '.' :: rest2 =>
    let fp := rest2.takeWhile (fun c => c.isDigit)
    let rest3 := rest2.drop fp.length
    if rest3.isEmpty ∧ ¬(ip.isEmpty ∧ fp.isEmpty) then
      some ((digitsVal ip : ℚ) + fracVal fp)
    else none
  | _ => none

/-- Python `float(s)` on an already stripped string, for the decimal forms
produced by the vendor CLIs; `none` models the ValueError raised on text that
is not a number. -/
def parseFloat (s : String) : Option ℚ :=
  match s.data with
  | '+' :: rest => parseDecimal rest
  | '-' :: rest => (parseDecimal rest).map (fun q => -q)
  | l => parseDecimal l

/-- Leftmost match of a literal pattern followed by at least one digit,
returning the value of the maximal digit run: models
`re.search(pattern + r"(\d+)", text)` for the literal patterns used by the
AMD adapter. -/
def searchNum (pat : List Char) : List Char → Option ℕ
  | [] => none
  | c :: cs =>
    if pat.isPrefixOf (c :: cs) then
      let ds := ((c :: cs).drop pat.length).takeWhile (fun x => x.isDigit)
      if ds.isEmpty then searchNum pat cs else some (digitsVal ds)
    else searchNum pat cs

/-- Lower-cased characters of a string, as Python `str.lower()`. -/
def lowerStr (s : String) : List Char :=
  s.data.map Char.toLower

/-- Python `needle in hay` substring containment. -/
def containsSub (needle : List Char) : List Char → Bool
  | [] => needle.isEmpty
  | c :: cs => needle.isPrefixOf (c :: cs) || containsSub needle cs

/-- The Python exceptions the monitor's external calls can raise.
FileNotFoundError and PermissionError are subclasses of OSError (IOError);
SubprocessError covers CalledProcessError and its kin; ioErr stands for any
other OSError. -/
inductive PyErr where
  | fileNotFound
  | permissionDenied
  | subprocessErr
  | ioErr
  deriving DecidableEq, Repr

/-- Human-readable message of an exception, used in status strings. -/
def pyErrMsg : PyErr → String
  | .fileNotFound => "No such file or directory"
  | .permissionDenied => "Permission denied"
  | .subprocessErr => "subprocess error"
  | .ioErr => "I/O error"

/-- Python float division, raising ZeroDivisionError on a zero divisor. -/
def pyDivQ (a b : ℚ) : Except Unit ℚ :=
  if b = 0 then .error () else .ok (a / b)

/-!
GPU capability probing (src/system_monitor.py).

A ProbeEnv fixes what the external world answers during one probe:
- `nvidia`: the outcome of `subprocess.check_output(["nvidia-smi"])`;
- `sysfs`: the directories matched by `glob.glob("/sys/class/drm/card*/device")`,
  each with its `vendor` file (absent, unreadable, or its text);
- `lspci`: the outcome of `subprocess.check_output(["lspci"])`.
-/

deriving instance DecidableEq for Except

/-- One sysfs GPU device directory: its path and its `vendor` file, where
`none` means the file does not exist and `some (.error e)` a read that
raises. -/
structure SysDevice where
  path : String
  vendorFile : Option (Except PyErr String)
  deriving DecidableEq, Repr

/-- The answers the external world gives during a probe. -/
structure ProbeEnv where
  nvidia : Except PyErr String
  sysfs : List SysDevice
  lspci : Except PyErr String
  deriving DecidableEq, Repr

/-- The SystemMonitor's `_gpu_detection_cache` together with
`_gpu_detection_cache_time` and `_gpu_detection_cache_ttl`: a dictionary key
that may be absent is an `Option`, and a stored value may itself be `None`. -/
structure CacheState where
  gpuType : Option String
  amdPath : Option (Option String)
  cacheTime : ℚ
  ttl : ℚ
  deriving DecidableEq, Repr

/-- The cache as `SystemMonitor.__init__` creates it: empty dictionary,
time 0, ttl 60 seconds. -/
def freshCache : CacheState :=
  { gpuType := none, amdPath := none, cacheTime := 0, ttl := 60 }

/-- `_perform_amd_gpu_path_detection`: first globbed device directory whose
`vendor` file exists, reads without error and strips to the AMD vendor id
`0x1002`; devices whose file is missing, unreadable or holds another id are
skipped. -/
def perform_amd_gpu_path_detection : List SysDevice → Option String
  | [] => none
  | d :: ds =>
    match d.vendorFile with
    | some (.ok content) =>
      if pystrip content = "0x1002" then some d.path
      else perform_amd_gpu_path_detection ds
    | _ => perform_amd_gpu_path_detection ds

/-- The cache-miss arm of `_get_amd_gpu_path`: scan the filesystem and store
the result under the `amd_gpu_path` key (one filesystem probe). -/
def amd_path_miss (env : ProbeEnv) (st : CacheState) :
    Option String × CacheState × ℕ :=
  (perform_amd_gpu_path_detection env.sysfs,
   { st with amdPath := some (perform_amd_gpu_path_detection env.sysfs) }, 1)

/-- `_get_amd_gpu_path`: honour the cached `amd_gpu_path` entry while
`now - cache_time < ttl`, otherwise detect and store the result (the probe
count is 0 on a cache hit and 1 on a filesystem scan). -/
def get_amd_gpu_path (env : ProbeEnv) (now : ℚ) (st : CacheState) :
    Option String × CacheState × ℕ :=
  if now - st.cacheTime < st.ttl then
    match st.amdPath with
    | some p => (p, st, 0)
    | none => amd_path_miss env st
  else amd_path_miss env st

/-- The exceptions `except (subprocess.SubprocessError, FileNotFoundError)`
around the `nvidia-smi` invocation catches.  PermissionError and other
OSErrors are not in the clause. -/
def nvidia_caught : PyErr → Bool
  | .fileNotFound => true
  | .subprocessErr => true
  | _ => false

/-- The AMD block's handlers, `except (subprocess.SubprocessError,
FileNotFoundError)` followed by `except IOError`, together catch every
modelled exception (IOError is OSError, whose subclasses include
FileNotFoundError and PermissionError). -/
def amd_block_caught : PyErr → Bool
  | _ => true

/-- The lspci text test of `_perform_gpu_detection`: "amd" in the lowercased
output together with "vga" or "display". -/
def lspci_amd_match (out : String) : Bool :=
  containsSub "amd".data (lowerStr out) &&
    (containsSub "vga".data (lowerStr out) || containsSub "display".data (lowerStr out))

/-- `_perform_gpu_detection`: nvidia-smi first (uncaught exceptions
propagate), then the cached sysfs AMD path, then the lspci text match; the
result carries the vendor string, the cache as the AMD path lookup leaves it,
and the number of external interactions (subprocess invocations and
filesystem scans) performed. -/
def perform_gpu_detection (env : ProbeEnv) (now : ℚ) (st : CacheState) :
    Except PyErr String × CacheState × ℕ :=
  match env.nvidia with
  | .ok _ => (.ok "nvidia", st, 1)
  | .error e =>
    if nvidia_caught e then
      let r := get_amd_gpu_path env now st
      if r.1.isSome then (.ok "amd", r.2.1, 1 + r.2.2)
      else
        match env.lspci with
        | .ok out =>
          if lspci_amd_match out then (.ok "amd", r.2.1, 1 + r.2.2 + 1)
          else (.ok "none", r.2.1, 1 + r.2.2 + 1)
        | .error e2 =>
          if amd_block_caught e2 then (.ok "none", r.2.1, 1 + r.2.2 + 1)
          else (.error e2, r.2.1, 1 + r.2.2 + 1)
    else (.error e, st, 1)

/-- The cache-miss arm of `_detect_gpu_type`: perform detection and, when it
returns without raising, store the vendor under the `gpu_type` key and stamp
the cache with `now` (an exception skips the cache update and propagates). -/
def detect_miss (env : ProbeEnv) (now : ℚ) (st : CacheState) :
    Except PyErr String × CacheState × ℕ :=
  match perform_gpu_detection env now st with
  | (.ok g, st1, k) => (.ok g, { st1 with gpuType := some g, cacheTime := now }, k)
  | (.error e, st1, k) => (.error e, st1, k)

/-- `_detect_gpu_type`: honour the cached `gpu_type` entry while
`now - cache_time < ttl`; otherwise take the miss arm. -/
def detect_gpu_type (env : ProbeEnv) (now : ℚ) (st : CacheState) :
    Except PyErr String × CacheState × ℕ :=
  if now - st.cacheTime < st.ttl then
    match st.gpuType with
    | some g => (.ok g, st, 0)
    | none => detect_miss env now st
  else detect_miss env now st

/-- `SystemMonitor.__init__`: detect the vendor from a fresh cache at time
`t1`, then resolve `_amd_gpu_device_path` at time `t2` only when the vendor is
"amd"; an exception from detection propagates out of the constructor. -/
def system_monitor_init (env : ProbeEnv) (t1 t2 : ℚ) :
    Except PyErr String × Option String :=
  match detect_gpu_type env t1 freshCache with
  | (.ok g, st1, _) =>
    (.ok g, if g = "amd" then (get_amd_gpu_path env t2 st1).1 else none)
  | (.error e, _, _) => (.error e, none)

/-!
NVIDIA adapter (src/system_monitor.py, `_get_nvidia_gpu_info`).

The returned dictionary is modelled as a record of optional fields, so that
"key present in the dict" is "field is some": the error path sets `status`
alone, the success path sets the seven data fields and no `status`.
-/

/-- The dictionary `_get_nvidia_gpu_info` returns, one optional field per
possible key (the constant "type": "NVIDIA" entry of the success path is
implied by `status = none` and carries no information). -/
structure GpuInfoN where
  status : Option String
  name : Option String
  temperature : Option ℚ
  gpu_utilization : Option ℚ
  memory_utilization : Option ℚ
  memory_used : Option ℚ
  memory_total : Option ℚ
  power_draw : Option ℚ
  deriving DecidableEq, Repr

/-- The dictionary built by the `except Exception` handler: a status message
and nothing else. -/
def nvidia_err (msg : String) : GpuInfoN :=
  { status := some msg, name := none, temperature := none,
    gpu_utilization := none, memory_utilization := none,
    memory_used := none, memory_total := none, power_draw := none }

/-- The power field: `float(power.strip()) if power.strip() else 0`, on the
already stripped text. -/
def parse_power (s : String) : Option ℚ :=
  if s = "" then some 0 else parseFloat s

/-- Fixed-arity unpack and coercion of the comma-separated nvidia-smi line:
exactly seven fields or the unpack raises ValueError; each numeric field
coerced by `float` (ValueError on failure); every raise is caught by the
surrounding `except Exception` and becomes a status-only dictionary. -/
def nvidia_parse (parts : List String) : GpuInfoN :=
  match parts with
  | [n, t, g, m, u, tt, p] =>
    match parseFloat (pystrip t), parseFloat (pystrip g), parseFloat (pystrip m),
        parseFloat (pystrip u), parseFloat (pystrip tt), parse_power (pystrip p) with
    | some tv, some gv, some mv, some uv, some ttv, some pv =>
      { status := none, name := some (pystrip n), temperature := some tv,
        gpu_utilization := some gv, memory_utilization := some mv,
        memory_used := some uv, memory_total := some ttv, power_draw := some pv }
    | _, _, _, _, _, _ =>
      nvidia_err "Error fetching NVIDIA GPU info: could not convert string to float"
  | _ =>
    nvidia_err "Error fetching NVIDIA GPU info: cannot unpack nvidia-smi output"

/-- `_get_nvidia_gpu_info`: invoke nvidia-smi with the fixed ordered query
field list; strip the captured line and split on commas; an invocation
failure (any exception) becomes a status-only dictionary. -/
def get_nvidia_gpu_info (res : Except PyErr String) : GpuInfoN :=
  match res with
  | .error e => nvidia_err ("Error fetching NVIDIA GPU info: " ++ pyErrMsg e)
  | .ok out => nvidia_parse (pysplit (pystrip out) ',')

/-!
AMD memory step (src/system_monitor.py, `_get_amd_gpu_info` lines 255-288):
the rocm-smi output is searched for the two VRAM byte counts; both present
and both megabyte values strictly positive gates the three memory fields and
the utilization division.
-/

/-- `re.search(r"VRAM Total Memory \(B\): (\d+)", out)`. -/
def vram_total_search (out : String) : Option ℕ :=
  searchNum "VRAM Total Memory (B): ".data out.data

/-- `re.search(r"VRAM Total Used Memory \(B\): (\d+)", out)`. -/
def vram_used_search (out : String) : Option ℕ :=
  searchNum "VRAM Total Used Memory (B): ".data out.data

/-- The memory block of `_get_amd_gpu_info` on the two regex outcomes:
`total_memory_mb` and `used_memory_mb` default to 0 and are filled only when
both patterns matched, so the strict-positivity guard
`total_memory_mb > 0 and used_memory_mb > 0` fails outright when either
pattern missed (the `0 > 0` test - that arm therefore collapses to "no
memory fields"); under the guard the
`(memory_used, memory_total, memory_utilization)` entries are written and the
utilization division runs.  `Except Unit` carries a ZeroDivisionError,
`ok none` an output without memory fields. -/
def amd_memory_core (tm um : Option ℕ) : Except Unit (Option (ℚ × ℚ × ℚ)) :=
  match tm, um with
  | some t, some u =>
    if 0 < (t : ℚ) / (1024 * 1024) ∧ 0 < (u : ℚ) / (1024 * 1024) then
      match pyDivQ ((u : ℚ) / (1024 * 1024)) ((t : ℚ) / (1024 * 1024)) with
      | .error e => .error e
      | .ok q =>
        .ok (some ((u : ℚ) / (1024 * 1024), (t : ℚ) / (1024 * 1024), q * 100))
    else .ok none
  | _, _ => .ok none

/-- The memory block of `_get_amd_gpu_info` on a successful rocm-smi
invocation, from the captured output text. -/
def amd_memory_step (out : String) : Except Unit (Option (ℚ × ℚ × ℚ)) :=
  amd_memory_core (vram_total_search out) (vram_used_search out)

/-!
Graph renderer (src/main.py, `draw_graph` and `safe_addstr`) over a character
grid standing for the curses window.
-/

/-- The curses window: its live dimensions and the character grid. -/
structure Screen where
  rows : ℕ
  cols : ℕ
  cells : List (List Char)
  deriving DecidableEq, Repr

/-- A blank screen of the given size. -/
def blankScreen (rows cols : ℕ) : Screen :=
  { rows := rows, cols := cols, cells := List.replicate rows (List.replicate cols ' ') }

/-- Overwrite a row's characters from column `x` on with `s`. -/
def writeRowChars (row : List Char) (x : ℕ) (s : List Char) : List Char :=
  row.take x ++ s ++ row.drop (x + s.length)

/-- `stdscr.addstr(y, x, s)`: raises curses.error when the start position is
outside the window or the text overruns the right margin; otherwise writes
the characters in row `y` from column `x`. -/
def addstr (sc : Screen) (y x : ℤ) (s : List Char) : Except Unit Screen :=
  if 0 ≤ y ∧ y < (sc.rows : ℤ) ∧ 0 ≤ x ∧ x < (sc.cols : ℤ) ∧
      x + (s.length : ℤ) ≤ (sc.cols : ℤ) then
    .ok { sc with
      cells := sc.cells.set y.toNat (writeRowChars (sc.cells.getD y.toNat []) x.toNat s) }
  else .error ()

/-- `safe_addstr` (src/main.py lines 10-22): bounds-check the start position
against `getmaxyx`, truncate the text to the available width, and swallow any
curses.error, leaving the screen as it was. -/
def safe_addstr (sc : Screen) (y x : ℤ) (s : String) : Screen :=
  if 0 ≤ y ∧ y < (sc.rows : ℤ) ∧ 0 ≤ x ∧ x < (sc.cols : ℤ) then
    let available := ((sc.cols : ℤ) - x).toNat
    let text := if s.data.length > available then s.data.take available else s.data
    match addstr sc y x text with
    | .ok sc1 => sc1
    | .error _ => sc
  else sc

/-- `for i in range(n)` over screen-writing bodies, short-circuiting on a
raised curses.error. -/
def forRange (n : ℕ) (f : ℕ → Screen → Except Unit Screen) (sc : Screen) :
    Except Unit Screen :=
  (List.range n).foldlM (fun s i => f i s) sc

/-- `f"{v:3d}"`: decimal text right-aligned to width 3. -/
def fmt3d (v : ℤ) : String :=
  let s := toString v
  String.mk (List.replicate (3 - s.length) ' ') ++ s

/-- Screen row of one data point, as `draw_graph` computes it:
`height - int((value / y_max) * height)` then clamped into
`[0, height - 1]`. -/
def plotRow (value y_max : ℚ) (height : ℕ) : ℤ :=
  max 0 (min ((height : ℤ) - 1) ((height : ℤ) - pytrunc (value / y_max * height)))

/-- `draw_graph` (src/main.py lines 34-89): title, side borders, bottom
border, the three y-axis labels (y_max always 100 at every call site, so the
`value / y_max` divisions never hit Python's ZeroDivisionError), then the
newest-first plot of `min(width, len(data) - 1)` segments with slope-chosen
glyphs; every write goes through the raw `stdscr.addstr`. -/
def draw_graph (sc : Screen) (y_start x_start : ℤ) (width height : ℕ)
    (data : List ℚ) (title : String) (y_max : ℤ) : Except Unit Screen := do
  let sc ← addstr sc y_start x_start title.data
  let sc ← forRange height (fun i s => do
    let s ← addstr s (y_start + 1 + (i : ℤ)) x_start ['|']
    addstr s (y_start + 1 + (i : ℤ)) (x_start + (width : ℤ) + 1) ['|']) sc
  let sc ← forRange (width + 2)
    (fun i s => addstr s (y_start + (height : ℤ) + 1) (x_start + (i : ℤ)) ['-']) sc
  let sc ← addstr sc (y_start + 1) (x_start - 4) (fmt3d y_max ++ "%").data
  let sc ← addstr sc (y_start + ((height / 2 : ℕ) : ℤ)) (x_start - 4)
    (fmt3d (y_max.fdiv 2) ++ "%").data
  let sc ← addstr sc (y_start + (height : ℤ)) (x_start - 4) "  0%".data
  let dlen : ℤ := data.length
  forRange (min (width : ℤ) (dlen - 1)).toNat (fun i s => do
    let x1 : ℤ := (i : ℤ)
    let y1 : ℤ := plotRow (data.getD (dlen - 1 - (i : ℤ)).toNat 0) (y_max : ℚ) height
    let x2 : ℤ := (i : ℤ) + 1
    let y2 : ℤ := plotRow (data.getD (dlen - 2 - (i : ℤ)).toNat 0) (y_max : ℚ) height
    if x1 = x2 then
      forRange (max y1 y2 - min y1 y2 + 1).toNat
        (fun j s => addstr s (y_start + 1 + (min y1 y2 + (j : ℤ))) (x_start + 1 + x1) ['│']) s
    else
      let ch : Char := if y1 < y2 then '╱' else if y1 > y2 then '╲' else '─'
      addstr s (y_start + 1 + y1) (x_start + 1 + x1) [ch]) sc

/-!
Rolling history (src/main.py lines 127-133 and the per-tick appendlefts):
each series is `collections.deque([0] * 120, maxlen=120)` and absorbs one
`appendleft` per tick.
-/

/-- `deque.appendleft` under a maxlen: push at the front, evicting from the
right once full. -/
def appendleft (maxlen : ℕ) (v : ℚ) (l : List ℚ) : List ℚ :=
  (v :: l).take maxlen

/-- A history series at creation: `[0] * 120` with `maxlen=120`. -/
def history_init : List ℚ :=
  List.replicate 120 0

/-- A history series after the given values were pushed one per tick, oldest
push first. -/
def history_run (pushes : List ℚ) : List ℚ :=
  pushes.foldl (fun l v => appendleft 120 v l) history_init

/-!
Network rates.  `display_monitor` (src/main.py line 337) calls
`monitor.get_network_info()`, but src/system_monitor.py defines no such
method; the computation is modelled from the spec (section 4.3).
-/

/-- The previous tick's raw cumulative counters and its wall time. -/
structure NetSample where
  counters : List (String × ℕ × ℕ)
  time : ℚ
  deriving DecidableEq, Repr

/-- The network snapshot: total and per-interface per-second send/receive
rates. -/
structure NetInfo where
  total_bytes_sent_per_sec : ℚ
  total_bytes_recv_per_sec : ℚ
  interfaces : List (String × ℚ × ℚ)
  deriving DecidableEq, Repr

/-- Per-second rates of one interface against the previous sample: counter
delta over elapsed wall time, zero for an interface without a prior
sample. -/
def iface_rates (prev : NetSample) (now : ℚ) (c : String × ℕ × ℕ) : ℚ × ℚ :=
  match prev.counters.find? (fun p => p.1 = c.1) with
  | some p => (((c.2.1 : ℚ) - (p.2.1 : ℚ)) / (now - prev.time),
               ((c.2.2 : ℚ) - (p.2.2 : ℚ)) / (now - prev.time))
  | none => (0, 0)

/-- Modelled from the spec: `get_network_info`, absent from
src/system_monitor.py though called by `display_monitor`.  Section 4.3: the
builder retains the previous tick's raw cumulative byte counters per
interface and computes `(currentBytes - previousBytes) / elapsedSeconds` per
interface and for the sum across interfaces; the first call after start has
no prior sample and must report every rate as zero.  Input is the current
cumulative counters `(name, bytes_sent, bytes_recv)` per interface. -/
def get_network_info (current : List (String × ℕ × ℕ)) (now : ℚ)
    (prev : Option NetSample) : NetInfo × NetSample :=
  match prev with
  | none =>
    ({ total_bytes_sent_per_sec := 0, total_bytes_recv_per_sec := 0,
       interfaces := current.map (fun c => (c.1, (0 : ℚ), (0 : ℚ))) },
     { counters := current, time := now })
  | some p =>
    let per := current.map (fun c => (c.1, iface_rates p now c))
    ({ total_bytes_sent_per_sec := (per.map (fun r => r.2.1)).sum,
       total_bytes_recv_per_sec := (per.map (fun r => r.2.2)).sum,
       interfaces := per },
     { counters := current, time := now })

/-!
Theorems.  Claim ids refer to CLAIMS.json.
-/

lemma history_len_aux (pushes : List ℚ) :
    ∀ init : List ℚ, init.length = 120 →
      (pushes.foldl (fun l v => appendleft 120 v l) init).length = 120 := by
  induction pushes with
  | nil => intro init h; simpa using h
  | cons v vs ih =>
    intro init h
    simp only [List.foldl_cons]
    apply ih
    simp [appendleft, h]

/-- C9: after any number of ticks the history series keeps length exactly 120
(the capacity, zero-prefilled at creation), and the value pushed last is the
one at the newest-first position, index 0. -/
theorem c9_history_capacity_and_front (pushes : List ℚ) (v : ℚ) :
    (history_run pushes).length = 120 ∧
    (history_run (pushes ++ [v])).head? = some v := by
  constructor
  · exact history_len_aux pushes history_init (by simp [history_init])
  · unfold history_run
    rw [List.foldl_append]
    simp only [List.foldl_cons, List.foldl_nil]
    rfl

/-- C2: the very first network-rate computation after construction (no prior
sample retained) reports zero for the total and for every per-interface
per-second send/receive rate, whatever the raw cumulative counters hold. -/
theorem c2_first_network_rates_zero (current : List (String × ℕ × ℕ)) (now : ℚ) :
    (get_network_info current now none).1 =
      { total_bytes_sent_per_sec := 0, total_bytes_recv_per_sec := 0,
        interfaces := current.map (fun c => (c.1, (0 : ℚ), (0 : ℚ))) } := by
  rfl

/-- The data-point row as the spec's words state it:
`height - round((value / yMax) * height)`, clamped to `[0, height-1]`.
Stated only to be compared with `plotRow`, which embeds the source. -/
def spec_plot_row (value y_max : ℚ) (height : ℕ) : ℤ :=
  max 0 (min ((height : ℤ) - 1) ((height : ℤ) - round (value / y_max * height)))

/-- C8 counterexample: at value 70, yMax 100, height 8 the renderer places
the point on row 3 (it truncates 5.6 to 5) while the claimed rounding formula
gives row 2. -/
theorem c8_round_counterexample :
    plotRow 70 100 8 = 3 ∧ spec_plot_row 70 100 8 = 2 ∧
      plotRow 70 100 8 ≠ spec_plot_row 70 100 8 := by
  have h1 : plotRow 70 100 8 = 3 := by norm_num [plotRow, pytrunc]
  have h2 : spec_plot_row 70 100 8 = 2 := by norm_num [spec_plot_row, round_eq]
  exact ⟨h1, h2, by rw [h1, h2]; decide⟩

/-- C8 (amended): each plotted data point's screen row equals
`height - int((value / yMax) * height)` - truncation, which is the floor for
the nonnegative values plotted - clamped to `[0, height-1]`. -/
theorem c8_row_formula (v m : ℚ) (h : ℕ) (hv : 0 ≤ v) (hm : 0 < m) :
    plotRow v m h = max 0 (min ((h : ℤ) - 1) ((h : ℤ) - ⌊v / m * (h : ℚ)⌋)) := by
  unfold plotRow pytrunc
  rw [if_pos]
  exact mul_nonneg (div_nonneg hv hm.le) (by positivity)

/-- C8 witness: the amended formula evaluated at value 70, yMax 100,
height 8. -/
theorem c8_row_formula_witness :
    plotRow 70 100 8 =
      max 0 (min ((8 : ℤ) - 1) ((8 : ℤ) - ⌊(70 : ℚ) / 100 * ((8 : ℕ) : ℚ)⌋)) :=
  c8_row_formula 70 100 8 (by norm_num) (by norm_num)

/-- C1 (code bug): on a live terminal of 3 rows by 10 columns - legal once
the terminal shrinks between ticks - `draw_graph` at the CPU panel's origin
(row 4, column 5) raises curses.error out of the renderer instead of
silently dropping the out-of-bounds writes: its very first `stdscr.addstr`
targets row 4 of a 3-row window. -/
theorem c1_draw_graph_raises_out_of_bounds :
    draw_graph (blankScreen 3 10) 4 5 20 8 (List.replicate 120 0)
      "CPU Usage (%) - Last 2 Minutes" 100 = .error () := by
  rfl

lemma amd_memory_core_guard (tm um : Option ℕ) :
    amd_memory_core tm um ≠ .error () ∧
    ((tm = none ∨ tm = some 0) → amd_memory_core tm um = .ok none) ∧
    (∀ u t q, amd_memory_core tm um = .ok (some (u, t, q)) →
      ∃ tb ub, tm = some tb ∧ um = some ub ∧ 0 < tb ∧ 0 < ub ∧
        t = (tb : ℚ) / (1024 * 1024) ∧ u = (ub : ℚ) / (1024 * 1024)) := by
  rcases tm with _ | tb
  · exact ⟨by simp [amd_memory_core], fun _ => by simp [amd_memory_core],
      fun u t q hq => by simp [amd_memory_core] at hq⟩
  · rcases um with _ | ub
    · exact ⟨by simp [amd_memory_core], fun h => by simp [amd_memory_core],
        fun u t q hq => by simp [amd_memory_core] at hq⟩
    · by_cases hg : 0 < (tb : ℚ) / (1024 * 1024) ∧ 0 < (ub : ℚ) / (1024 * 1024)
      · have htb : ((tb : ℚ) / (1024 * 1024)) ≠ 0 := ne_of_gt hg.1
        have h : amd_memory_core (some tb) (some ub) =
            .ok (some ((ub : ℚ) / (1024 * 1024), (tb : ℚ) / (1024 * 1024),
              ((ub : ℚ) / (1024 * 1024) / ((tb : ℚ) / (1024 * 1024))) * 100)) := by
          simp only [amd_memory_core, pyDivQ, if_pos hg, if_neg htb]
        have htbp : 0 < tb := by
          have h1 := hg.1
          rcases div_pos_iff.mp h1 with ⟨h2, _⟩ | ⟨_, h3⟩
          · exact_mod_cast h2
          · norm_num at h3
        have hubp : 0 < ub := by
          have h1 := hg.2
          rcases div_pos_iff.mp h1 with ⟨h2, _⟩ | ⟨_, h3⟩
          · exact_mod_cast h2
          · norm_num at h3
        refine ⟨by rw [h]; simp, ?_, ?_⟩
        · rintro (h0 | h0)
          · exact absurd h0 (by simp)
          · exfalso
            have : tb = 0 := by injection h0
            rw [this] at htbp
            exact absurd htbp (by norm_num)
        · intro u t q hq
          rw [h] at hq
          simp only [Except.ok.injEq, Option.some.injEq, Prod.mk.injEq] at hq
          exact ⟨tb, ub, rfl, rfl, htbp, hubp, hq.2.1.symm, hq.1.symm⟩
      · have h : amd_memory_core (some tb) (some ub) = .ok none := by
          simp only [amd_memory_core, if_neg hg]
        exact ⟨by rw [h]; simp, fun _ => h,
          fun u t q hq => by rw [h] at hq; simp at hq⟩

/-- C3: the AMD adapter derives the memory fields only when both parsed VRAM
byte counts are strictly positive; a missing or zero total yields an output
without memory fields, and the utilization division never raises
ZeroDivisionError. -/
theorem c3_amd_memory_positive_guard (out : String) :
    amd_memory_step out ≠ .error () ∧
    ((vram_total_search out = none ∨ vram_total_search out = some 0) →
      amd_memory_step out = .ok none) ∧
    (∀ u t q, amd_memory_step out = .ok (some (u, t, q)) →
      ∃ tb ub, vram_total_search out = some tb ∧ vram_used_search out = some ub ∧
        0 < tb ∧ 0 < ub ∧
        t = (tb : ℚ) / (1024 * 1024) ∧ u = (ub : ℚ) / (1024 * 1024)) :=
  amd_memory_core_guard (vram_total_search out) (vram_used_search out)

/-- C4: every NVIDIA sample is atomic - the returned dictionary either holds
only an error status, or all seven data fields (name, temperature, GPU
utilization, memory utilization, memory used, memory total, power draw)
parsed from the single delimited CLI line by fixed-arity split with
type-appropriate coercion - never a partial snapshot; and on the CLI line
"RTX X,62,45,30,4096,8192,120.5" it is the full snapshot of end-to-end
scenario B. -/
theorem c4_nvidia_atomic :
    (∀ res : Except PyErr String,
      ((get_nvidia_gpu_info res).status.isSome = true ∧
        (get_nvidia_gpu_info res).name = none ∧
        (get_nvidia_gpu_info res).temperature = none ∧
        (get_nvidia_gpu_info res).gpu_utilization = none ∧
        (get_nvidia_gpu_info res).memory_utilization = none ∧
        (get_nvidia_gpu_info res).memory_used = none ∧
        (get_nvidia_gpu_info res).memory_total = none ∧
        (get_nvidia_gpu_info res).power_draw = none) ∨
      ((get_nvidia_gpu_info res).status = none ∧
        (get_nvidia_gpu_info res).name.isSome = true ∧
        (get_nvidia_gpu_info res).temperature.isSome = true ∧
        (get_nvidia_gpu_info res).gpu_utilization.isSome = true ∧
        (get_nvidia_gpu_info res).memory_utilization.isSome = true ∧
        (get_nvidia_gpu_info res).memory_used.isSome = true ∧
        (get_nvidia_gpu_info res).memory_total.isSome = true ∧
        (get_nvidia_gpu_info res).power_draw.isSome = true)) ∧
    get_nvidia_gpu_info (.ok "RTX X,62,45,30,4096,8192,120.5") =
      { status := none, name := some "RTX X", temperature := some 62,
        gpu_utilization := some 45, memory_utilization := some 30,
        memory_used := some 4096, memory_total := some 8192,
        power_draw := some (241 / 2) } := by
  constructor
  · intro res
    unfold get_nvidia_gpu_info
    split
    · left; simp [nvidia_err]
    · unfold nvidia_parse
      split
      · split
        · right; simp
        · left; simp [nvidia_err]
      · left; simp [nvidia_err]
  · have hsplit : pysplit (pystrip "RTX X,62,45,30,4096,8192,120.5") ',' =
        ["RTX X", "62", "45", "30", "4096", "8192", "120.5"] := by decide
    have h62 : parseFloat (pystrip "62") = some 62 := by decide
    have h45 : parseFloat (pystrip "45") = some 45 := by decide
    have h30 : parseFloat (pystrip "30") = some 30 := by decide
    have h4096 : parseFloat (pystrip "4096") = some 4096 := by decide
    have h8192 : parseFloat (pystrip "8192") = some 8192 := by decide
    have hpw : parse_power (pystrip "120.5") = some (241 / 2) := by
      have hs : pystrip "120.5" = "120.5" := by decide
      rw [hs]
      have hne : ("120.5" : String) ≠ "" := by decide
      rw [parse_power, if_neg hne]
      have h : parseFloat "120.5" =
          some ((digitsVal ['1', '2', '0'] : ℚ) + fracVal ['5']) := by
        simp [parseFloat, parseDecimal]
      have d1 : digitsVal ['1', '2', '0'] = 120 := by decide
      have d2 : digitsVal ['5'] = 5 := by decide
      rw [h, d1]
      norm_num [fracVal, d2]
    have hname : pystrip "RTX X" = "RTX X" := by decide
    show nvidia_parse (pysplit (pystrip "RTX X,62,45,30,4096,8192,120.5") ',') = _
    rw [hsplit]
    unfold nvidia_parse
    simp only [h62, h45, h30, h4096, h8192, hpw, hname]

/-- C10: in a successful NVIDIA parse whose power field strips to the empty
string, the snapshot still carries a power-draw entry and its value is 0,
while the other six fields are coerced from their non-empty text. -/
theorem c10_empty_power_reads_zero (n t g m u tt p : String) (tv gv mv uv ttv : ℚ)
    (ht : parseFloat (pystrip t) = some tv) (hg : parseFloat (pystrip g) = some gv)
    (hm : parseFloat (pystrip m) = some mv) (hu : parseFloat (pystrip u) = some uv)
    (htt : parseFloat (pystrip tt) = some ttv) (hp : pystrip p = "") :
    nvidia_parse [n, t, g, m, u, tt, p] =
      { status := none, name := some (pystrip n), temperature := some tv,
        gpu_utilization := some gv, memory_utilization := some mv,
        memory_used := some uv, memory_total := some ttv,
        power_draw := some 0 } := by
  have hpw : parse_power (pystrip p) = some 0 := by
    rw [hp, parse_power, if_pos rfl]
  unfold nvidia_parse
  simp only [ht, hg, hm, hu, htt, hpw]

/-- C10 witness: the line "RTX X,62,45,30,4096,8192," with an empty power
field yields the full snapshot with power-draw 0. -/
theorem c10_empty_power_witness :
    nvidia_parse ["RTX X", "62", "45", "30", "4096", "8192", ""] =
      { status := none, name := some (pystrip "RTX X"), temperature := some 62,
        gpu_utilization := some 45, memory_utilization := some 30,
        memory_used := some 4096, memory_total := some 8192,
        power_draw := some 0 } :=
  c10_empty_power_reads_zero "RTX X" "62" "45" "30" "4096" "8192" ""
    62 45 30 4096 8192 (by decide) (by decide) (by decide) (by decide)
    (by decide) (by decide)

lemma amd_path_cacheTime (env : ProbeEnv) (now : ℚ) (st : CacheState) :
    ((get_amd_gpu_path env now st).2.1).cacheTime = st.cacheTime := by
  unfold get_amd_gpu_path amd_path_miss
  split
  · split <;> rfl
  · rfl

lemma amd_path_ttl (env : ProbeEnv) (now : ℚ) (st : CacheState) :
    ((get_amd_gpu_path env now st).2.1).ttl = st.ttl := by
  unfold get_amd_gpu_path amd_path_miss
  split
  · split <;> rfl
  · rfl

lemma perform_cacheTime (env : ProbeEnv) (now : ℚ) (st : CacheState) :
    ((perform_gpu_detection env now st).2.1).cacheTime = st.cacheTime := by
  simp only [perform_gpu_detection]
  split
  · rfl
  · split
    · split
      · exact amd_path_cacheTime env now st
      · split
        · split <;> exact amd_path_cacheTime env now st
        · split <;> exact amd_path_cacheTime env now st
    · rfl

lemma perform_ttl (env : ProbeEnv) (now : ℚ) (st : CacheState) :
    ((perform_gpu_detection env now st).2.1).ttl = st.ttl := by
  simp only [perform_gpu_detection]
  split
  · rfl
  · split
    · split
      · exact amd_path_ttl env now st
      · split
        · split <;> exact amd_path_ttl env now st
        · split <;> exact amd_path_ttl env now st
    · rfl

lemma detect_miss_ok (env : ProbeEnv) (now : ℚ) (st : CacheState) (v : String)
    (h : (detect_miss env now st).1 = .ok v) :
    ((detect_miss env now st).2.1).gpuType = some v ∧
    ((detect_miss env now st).2.1).cacheTime = now ∧
    ((detect_miss env now st).2.1).ttl = st.ttl := by
  have httl := perform_ttl env now st
  unfold detect_miss at h ⊢
  rcases hp : perform_gpu_detection env now st with ⟨r, stp, kp⟩
  rw [hp] at h httl
  cases r with
  | ok g =>
    simp only at h httl
    simp only [Except.ok.injEq] at h
    subst h
    exact ⟨rfl, rfl, httl⟩
  | error e => simp at h

/-- C5 (amended): after a `detectVendor()` call that refreshed the cache (a
call that performed at least one probe and returned a vendor), any call
within `ttlSeconds` of it - under any external environment - performs no
external tool invocation and no filesystem probe (probe count 0), returns
the identical vendor, and leaves the cache untouched. -/
theorem c5_cache_hit_within_ttl (env env2 : ProbeEnv) (t1 t2 : ℚ)
    (st0 : CacheState) (v : String)
    (h1 : (detect_gpu_type env t1 st0).1 = .ok v)
    (h2 : (detect_gpu_type env t1 st0).2.2 ≠ 0)
    (h3 : t2 - t1 < st0.ttl) :
    detect_gpu_type env2 t2 (detect_gpu_type env t1 st0).2.1 =
      (.ok v, (detect_gpu_type env t1 st0).2.1, 0) := by
  have hmiss : detect_gpu_type env t1 st0 = detect_miss env t1 st0 := by
    by_cases hc : t1 - st0.cacheTime < st0.ttl
    · cases hg : st0.gpuType with
      | some g =>
        exfalso
        have hhit : detect_gpu_type env t1 st0 = (.ok g, st0, 0) := by
          unfold detect_gpu_type
          rw [if_pos hc, hg]
        rw [hhit] at h2
        exact h2 rfl
      | none =>
        unfold detect_gpu_type
        rw [if_pos hc, hg]
    · unfold detect_gpu_type
      rw [if_neg hc]
  rw [hmiss] at h1 ⊢
  obtain ⟨hgt, hct, httl⟩ := detect_miss_ok env t1 st0 v h1
  unfold detect_gpu_type
  rw [hct, httl, if_pos h3, hgt]

/-- An environment in which the NVIDIA CLI invocation succeeds. -/
def env_nvidia_ok : ProbeEnv :=
  { nvidia := .ok "", sysfs := [], lspci := .ok "" }

/-- The cache state after the first detection at time 1 in
`env_nvidia_ok`. -/
def cache_after_first : CacheState :=
  { gpuType := some "nvidia", amdPath := none, cacheTime := 1, ttl := 60 }

lemma detect_call_one :
    detect_gpu_type env_nvidia_ok 1 freshCache =
      (.ok "nvidia", cache_after_first, 1) := by
  unfold detect_gpu_type
  rw [if_pos (by norm_num [freshCache])]
  rfl

lemma detect_call_two :
    detect_gpu_type env_nvidia_ok 60 cache_after_first =
      (.ok "nvidia", cache_after_first, 0) := by
  unfold detect_gpu_type
  rw [if_pos (by norm_num [cache_after_first])]
  rfl

lemma detect_call_three :
    (detect_gpu_type env_nvidia_ok 89 cache_after_first).2.2 = 1 := by
  unfold detect_gpu_type
  rw [if_neg (by norm_num [cache_after_first])]
  rfl

/-- C5 counterexample: take the detection calls at times 1, 60 and 89 in a
fixed environment.  The call at 60 and the call at 89 are 29 seconds apart -
well within the 60-second ttl - yet the call at 89 performs an external probe
(count 1, not 0), because the cache is stamped with the probing call's time
(1), not the last call's: the claim fails for this pair of calls. -/
theorem c5_cache_pair_counterexample :
    (detect_gpu_type env_nvidia_ok 60
        (detect_gpu_type env_nvidia_ok 1 freshCache).2.1).1 = .ok "nvidia" ∧
    (detect_gpu_type env_nvidia_ok 60
        (detect_gpu_type env_nvidia_ok 1 freshCache).2.1).2.2 = 0 ∧
    ((89 : ℚ) - 60 < 60) ∧
    (detect_gpu_type env_nvidia_ok 89
        (detect_gpu_type env_nvidia_ok 60
          (detect_gpu_type env_nvidia_ok 1 freshCache).2.1).2.1).2.2 ≠ 0 := by
  have e1 := detect_call_one
  have e2 := detect_call_two
  have e3 := detect_call_three
  refine ⟨?_, ?_, by norm_num, ?_⟩
  · rw [e1]
    show (detect_gpu_type env_nvidia_ok 60 cache_after_first).1 = .ok "nvidia"
    rw [e2]
  · rw [e1]
    show (detect_gpu_type env_nvidia_ok 60 cache_after_first).2.2 = 0
    rw [e2]
  · rw [e1]
    show (detect_gpu_type env_nvidia_ok 89
        (detect_gpu_type env_nvidia_ok 60 cache_after_first).2.1).2.2 ≠ 0
    rw [e2]
    show (detect_gpu_type env_nvidia_ok 89 cache_after_first).2.2 ≠ 0
    rw [e3]
    norm_num

/-- C5 witness: the amended theorem at the concrete first call (time 0, fresh
cache, NVIDIA present) and second call 30 seconds later. -/
theorem c5_cache_hit_witness :
    detect_gpu_type env_nvidia_ok 30
        (detect_gpu_type env_nvidia_ok 0 freshCache).2.1 =
      (.ok "nvidia", (detect_gpu_type env_nvidia_ok 0 freshCache).2.1, 0) :=
  c5_cache_hit_within_ttl env_nvidia_ok env_nvidia_ok 0 30 freshCache "nvidia"
    (by unfold detect_gpu_type
        rw [if_pos (by norm_num [freshCache])]
        rfl)
    (by unfold detect_gpu_type
        rw [if_pos (by norm_num [freshCache])]
        exact Nat.one_ne_zero)
    (by norm_num [freshCache])

lemma detect_fresh (env : ProbeEnv) (t1 : ℚ) :
    detect_gpu_type env t1 freshCache = detect_miss env t1 freshCache := by
  unfold detect_gpu_type
  split
  · rfl
  · rfl

lemma get_amd_gpu_path_unfilled (env : ProbeEnv) (now : ℚ) (st : CacheState)
    (h : st.amdPath = none) :
    get_amd_gpu_path env now st = amd_path_miss env st := by
  unfold get_amd_gpu_path
  split
  · rw [h]
  · rfl

lemma get_amd_gpu_path_resolves (env : ProbeEnv) (now : ℚ) (st : CacheState)
    (p : Option String) (h1 : st.amdPath = some p)
    (h2 : perform_amd_gpu_path_detection env.sysfs = p) :
    (get_amd_gpu_path env now st).1 = p := by
  unfold get_amd_gpu_path
  split
  · rw [h1]
  · simp [amd_path_miss, h2]

/-- C6: the fallback chain in order with short-circuit on first success - a
successful NVIDIA CLI invocation yields "nvidia"; with the NVIDIA tool absent,
a sysfs device directory whose vendor file matches 0x1002 yields "amd" with
that directory as the constructor's resolved device path (end-to-end
scenario A); with no such directory, an lspci text match for AMD plus a
display-class keyword yields "amd"; and with no match, "none". -/
theorem c6_detection_chain (env : ProbeEnv) (t1 t2 : ℚ) :
    ((∃ out, env.nvidia = .ok out) →
      system_monitor_init env t1 t2 = (.ok "nvidia", none)) ∧
    (∀ p, env.nvidia = .error .fileNotFound →
      perform_amd_gpu_path_detection env.sysfs = some p →
      system_monitor_init env t1 t2 = (.ok "amd", some p)) ∧
    (∀ out, env.nvidia = .error .fileNotFound →
      perform_amd_gpu_path_detection env.sysfs = none → env.lspci = .ok out →
      lspci_amd_match out = true →
      system_monitor_init env t1 t2 = (.ok "amd", none)) ∧
    (∀ out, env.nvidia = .error .fileNotFound →
      perform_amd_gpu_path_detection env.sysfs = none → env.lspci = .ok out →
      lspci_amd_match out = false →
      system_monitor_init env t1 t2 = (.ok "none", none)) := by
  have hga : get_amd_gpu_path env t1 freshCache = amd_path_miss env freshCache :=
    get_amd_gpu_path_unfilled env t1 freshCache rfl
  refine ⟨?_, ?_, ?_, ?_⟩
  · rintro ⟨out, hout⟩
    unfold system_monitor_init
    rw [detect_fresh]
    simp [detect_miss, perform_gpu_detection, hout]
  · intro p hn hp
    unfold system_monitor_init
    rw [detect_fresh]
    simp only [detect_miss, perform_gpu_detection, hn, hga, amd_path_miss, hp,
      nvidia_caught, Option.isSome_some, if_true]
    have hr : (get_amd_gpu_path env t2
        { gpuType := some "amd", amdPath := some (some p),
          cacheTime := t1, ttl := freshCache.ttl }).1 = some p :=
      get_amd_gpu_path_resolves env t2 _ (some p) rfl hp
    simp [hr]
  · intro out hn hp hl hm
    unfold system_monitor_init
    rw [detect_fresh]
    simp only [detect_miss, perform_gpu_detection, hn, hga, amd_path_miss, hp,
      nvidia_caught, Option.isSome_none, Bool.false_eq_true, if_false, hl, hm,
      if_true]
    have hr : (get_amd_gpu_path env t2
        { gpuType := some "amd", amdPath := some none,
          cacheTime := t1, ttl := freshCache.ttl }).1 = none :=
      get_amd_gpu_path_resolves env t2 _ none rfl hp
    simp [hr]
  · intro out hn hp hl hm
    unfold system_monitor_init
    rw [detect_fresh]
    simp only [detect_miss, perform_gpu_detection, hn, hga, amd_path_miss, hp,
      nvidia_caught, Option.isSome_none, Bool.false_eq_true, if_false, hl, hm]
    simp

/-- An environment in which invoking the NVIDIA CLI raises PermissionError
(the binary exists but is not executable). -/
def env_permission_denied : ProbeEnv :=
  { nvidia := .error .permissionDenied, sysfs := [], lspci := .ok "" }

/-- C7 counterexample: a PermissionError from the `nvidia-smi` invocation is
not in the NVIDIA step's `except (subprocess.SubprocessError,
FileNotFoundError)` clause, so detection does not demote to the AMD steps -
the exception propagates out of `SystemMonitor.__init__` to the caller. -/
theorem c7_permission_denied_propagates :
    (system_monitor_init env_permission_denied 0 0).1 =
      .error .permissionDenied := by
  unfold system_monitor_init detect_gpu_type
  rw [if_pos (by norm_num [freshCache])]
  rfl

/-- C7 (amended): the AMD steps of the fallback chain tolerate every
modelled failure - tool not found, permission denied, subprocess error,
other I/O error, and malformed output - and the NVIDIA step tolerates the
failures its handler names (tool not found, subprocess error): whenever the
NVIDIA invocation either succeeds or fails with one of those two, detection
returns a vendor verdict and propagates no error, whatever the sysfs tree
and the lspci outcome.  A permission-denied NVIDIA invocation, however,
escapes the chain (see the counterexample). -/
theorem c7_caught_failures_demote (env : ProbeEnv) (now : ℚ) (st : CacheState)
    (hn : ∀ e, env.nvidia = .error e → nvidia_caught e = true) :
    ∃ g, (perform_gpu_detection env now st).1 = .ok g := by
  simp only [perform_gpu_detection]
  rcases henv : env.nvidia with e | s
  · dsimp only
    have hc := hn e henv
    rw [if_pos hc]
    by_cases hsome : (get_amd_gpu_path env now st).1.isSome
    · refine ⟨"amd", ?_⟩
      rw [if_pos hsome]
    · rw [if_neg hsome]
      rcases hl : env.lspci with e2 | out
      · exact ⟨"none",
          by dsimp only; rw [if_pos (show amd_block_caught e2 = true from rfl)]⟩
      · by_cases hm : lspci_amd_match out
        · exact ⟨"amd", by dsimp only; rw [if_pos hm]⟩
        · exact ⟨"none", by dsimp only; rw [if_neg hm]⟩
  · exact ⟨"nvidia", rfl⟩

/-- An environment exhibiting all three tolerated failure kinds at once: the
NVIDIA tool is absent, the sysfs vendor file read raises PermissionError, and
lspci fails with a subprocess error. -/
def env_three_failures : ProbeEnv :=
  { nvidia := .error .fileNotFound,
    sysfs := [{ path := "/sys/class/drm/card0/device",
                vendorFile := some (.error .permissionDenied) }],
    lspci := .error .subprocessErr }

/-- C7 witness: the amended theorem at the all-failures environment - the
chain still ends in a vendor verdict instead of an exception. -/
theorem c7_caught_failures_witness :
    ∃ g, (perform_gpu_detection env_three_failures 0 freshCache).1 = .ok g :=
  c7_caught_failures_demote env_three_failures 0 freshCache
    (by intro e h
        simp only [env_three_failures] at h
        injection h with h2
        rw [← h2]
        rfl)
